import Mathlib

/-!
Verification of the scenario-construction framework of `2022-git-fails`
(`gitfails/scenarios.py`).

The repository scripts a fixed sequence of version-control operations to
build demo repository topologies on disk.  We embed the scripts and the
state they act on shallowly:

* a `World` holds the repositories living under one scenario directory,
  keyed by their role name (`repo`, `origin`, `bad_dev`, `good_dev`,
  `upstream`, `fork`); commit identity is a `Nat` drawn from a fresh
  counter (distinct `Nat`s model distinct commit hashes, clones and
  fetches share ids, rebases mint new ids);
* the adapter primitives of `gitfails.actions` (`create_repo`,
  `create_file_and_commit`, `create_branch_and_checkout`, `clone`) are
  not part of the sources; they are modelled from the spec, as are the
  backend operations (push/pull/fetch/checkout/rebase) that the
  scenarios call directly on the backend;
* each scenario's `construct` is the interpretation of the literal list
  of operations transcribed from `scenarios.py`;
* `Scenario.__init__`'s overwrite handling is modelled separately as a
  function on a filesystem (a list of existing paths).
-/

namespace GitFails

/-- A working tree / commit tree: filenames mapped to file contents. -/
abbrev Tree := List (String × String)

/-- Association-list lookup (first binding wins). -/
def aFind {α : Type} (k : String) : List (String × α) → Option α
  | [] => none
  | (k2, v) :: rest => if k == k2 then some v else aFind k rest

/-- Association-list update: replace the binding of `k` if present, else append. -/
def aInsert {α : Type} (k : String) (v : α) : List (String × α) → List (String × α)
  | [] => [(k, v)]
  | (k2, v2) :: rest => if k == k2 then (k, v) :: rest else (k2, v2) :: aInsert k v rest

/-- A commit record: identity, author, message, optional parent, and the
full tree snapshot it commits.  All commits in these scenarios have at
most one parent (no merge commits are ever created by the scripts). -/
structure Commit where
  id : Nat
  author : String
  message : String
  parent : Option Nat
  tree : Tree
deriving DecidableEq, Repr

/-- A repository: its object store, local branches, remote-tracking
branches (for the single remote `origin`), checked-out branch name,
working tree, and the name of the repository it was cloned from. -/
structure Repo where
  commits : List Commit
  branches : List (String × Nat)
  remotes : List (String × Nat)
  head : String
  workdir : Tree
  origin : Option String
deriving DecidableEq, Repr

/-- The state of one scenario directory: its path, the repositories under
it keyed by role name, and the fresh-commit-id counter. -/
structure World where
  dirpath : String
  repos : List (String × Repo)
  nextId : Nat
deriving DecidableEq, Repr

/-- A world for a fresh (empty) scenario directory at `d`. -/
def World.fresh (d : String) : World := ⟨d, [], 0⟩

/-- Backend error taxonomy (spec section 7), plus `noSuchRepo` for
operations on a handle that does not exist in the world, and
`attributeError` for the Python-level failure of an undefined method
lookup. -/
inductive Err where
  | repositoryCreationError
  | commitError
  | branchError
  | remoteTransferError
  | rebaseConflictError
  | noSuchRepo
  | attributeError
deriving DecidableEq, Repr

/-- The backend operations issued by the scenario scripts. -/
inductive Op where
  | createRepo (name : String)
  | commitFile (repo author filename content message : String) (overwrite : Bool)
  | branchCheckout (repo branch : String)
  | clone (src dst : String)
  | push (repo branch : String) (force : Bool)
  | pull (repo branch : String)
  | fetch (repo : String)
  | checkout (repo branch : String)
  | rebase (repo onto : String)
deriving DecidableEq, Repr

/-- Find a commit by id in an object store. -/
def findCommit (cs : List Commit) (id : Nat) : Option Commit :=
  cs.find? (fun c => c.id == id)

/-- The tree of commit `id` in store `cs` (empty if absent). -/
def treeIn (cs : List Commit) (id : Nat) : Tree :=
  match findCommit cs id with
  | some c => c.tree
  | none => []

/-- Fuelled walk up the (single-parent) ancestor chain of `id`. -/
def ancestorsFuel (cs : List Commit) : Nat → Nat → List Nat
  | 0, _ => []
  | fuel + 1, id =>
    match findCommit cs id with
    | none => []
    | some c =>
      id :: (match c.parent with
             | none => []
             | some p => ancestorsFuel cs fuel p)

/-- All commit ids reachable from `id` (inclusive) in store `cs`. -/
def ancestors (cs : List Commit) (id : Nat) : List Nat :=
  ancestorsFuel cs (cs.length + 1) id

/-- Object transfer: add to `base` every commit of `extra` whose id it
does not already hold. -/
def addMissing (base extra : List Commit) : List Commit :=
  base ++ extra.filter (fun c => (findCommit base c.id).isNone)

/-- Replace repository `name` in the world. -/
def setRepo (w : World) (name : String) (r : Repo) : World :=
  { w with repos := aInsert name r w.repos }

/-- Apply the change `parentT → childT` onto `baseT` (rebase patch
application): deletions and changed/added files are carried over; a
changed file whose `baseT` value matches neither side is a conflict
(`none`).  The scenario scripts are conflict-free. -/
def applyChanges (parentT childT baseT : Tree) : Option Tree :=
  let changed := childT.filter (fun kv => !(aFind kv.1 parentT == some kv.2))
  if changed.all
      (fun kv => aFind kv.1 baseT == aFind kv.1 parentT || aFind kv.1 baseT == some kv.2)
  then
    let afterDel := baseT.filter
      (fun kv => !((aFind kv.1 parentT).isSome && (aFind kv.1 childT).isNone))
    some (childT.foldl
      (fun acc kv => if aFind kv.1 parentT == some kv.2 then acc else aInsert kv.1 kv.2 acc)
      afterDel)
  else none

/-- Replay a list of commits (oldest first) on top of commit `baseId`
with tree `baseT`, minting fresh ids from `nid`.  Returns the grown
store, next fresh id, new tip id and tip tree; `none` on conflict. -/
def replayCommits (cs : List Commit) (nid baseId : Nat) (baseT : Tree) :
    List Commit → Option (List Commit × Nat × Nat × Tree)
  | [] => some (cs, nid, baseId, baseT)
  | c :: rest =>
    let parentT := match c.parent with
      | some p => treeIn cs p
      | none => []
    match applyChanges parentT c.tree baseT with
    | none => none
    | some t =>
      replayCommits (cs ++ [⟨nid, c.author, c.message, some baseId, t⟩]) (nid + 1) nid t rest

/-- Commits from `id` down to (exclusive) the first commit in `stop`,
oldest first: the commits a rebase replays. -/
def collectToReplay (cs : List Commit) : Nat → Nat → List Nat → List Commit
  | 0, _, _ => []
  | fuel + 1, id, stop =>
    if stop.contains id then []
    else
      match findCommit cs id with
      | none => []
      | some c =>
        (match c.parent with
         | none => []
         | some p => collectToReplay cs fuel p stop) ++ [c]

/-- One backend operation on the world.

`createRepo`, `commitFile`, `branchCheckout` and `clone` are the adapter
primitives of `gitfails.actions`.  Modelled from the spec: the module is
not among the sources; spec section 4.1 gives their contracts
(`create_file_and_commit` writes the file "creating or overwriting per
the overwrite flag", stages and commits, and fails when there is nothing
to commit; `create_branch_and_checkout` creates the branch at the
current commit if absent and checks it out; `clone` copies the history
and sets an `origin` remote).  `push`/`pull`/`fetch`/`checkout`/`rebase`
are the backend calls the scenarios issue directly, modelled with their
standard semantics as described in spec sections 4.1 and 6: push updates
the origin's branch (rejecting non-fast-forward without `force`), pull
fast-forwards the current branch to the origin's branch, fetch refreshes
all remote-tracking branches, checkout switches to a local branch or
creates one from a remote-tracking branch, rebase replays the current
branch's exclusive commits onto the target branch as new commits. -/
def applyOp (op : Op) (w : World) : Except Err World :=
  match op with
  | .createRepo name =>
    match aFind name w.repos with
    | some _ => .ok w
    | none => .ok { w with repos := aInsert name ⟨[], [], [], "main", [], none⟩ w.repos }
  | .commitFile name author filename content message ow =>
    match aFind name w.repos with
    | none => .error .noSuchRepo
    | some r =>
      let wd := if (aFind filename r.workdir).isSome && !ow then r.workdir
                else aInsert filename content r.workdir
      let parent := aFind r.head r.branches
      let parentT : Tree := match parent with
        | some p => treeIn r.commits p
        | none => []
      if wd == parentT then .error .commitError
      else
        .ok { dirpath := w.dirpath
              repos := aInsert name
                { r with commits := r.commits ++ [⟨w.nextId, author, message, parent, wd⟩]
                         branches := aInsert r.head w.nextId r.branches
                         workdir := wd } w.repos
              nextId := w.nextId + 1 }
  | .branchCheckout name branch =>
    match aFind name w.repos with
    | none => .error .noSuchRepo
    | some r =>
      match aFind branch r.branches with
      | some id => .ok (setRepo w name { r with head := branch, workdir := treeIn r.commits id })
      | none =>
        match aFind r.head r.branches with
        | some cur =>
          .ok (setRepo w name
            { r with branches := aInsert branch cur r.branches
                     head := branch
                     workdir := treeIn r.commits cur })
        | none => .error .branchError
  | .clone src dst =>
    match aFind src w.repos with
    | none => .error .remoteTransferError
    | some s =>
      match aFind s.head s.branches with
      | some id =>
        let c : Repo :=
          ⟨s.commits, [(s.head, id)], s.branches, s.head, treeIn s.commits id, some src⟩
        .ok { w with repos := aInsert dst c w.repos }
      | none =>
        let c : Repo := ⟨s.commits, [], s.branches, s.head, [], some src⟩
        .ok { w with repos := aInsert dst c w.repos }
  | .push name branch force =>
    match aFind name w.repos with
    | none => .error .noSuchRepo
    | some r =>
      match r.origin with
      | none => .error .remoteTransferError
      | some oname =>
        match aFind oname w.repos with
        | none => .error .noSuchRepo
        | some og =>
          match aFind branch r.branches with
          | none => .error .branchError
          | some id =>
            let merged := addMissing og.commits r.commits
            let okFF := match aFind branch og.branches with
              | none => true
              | some old => (ancestors merged id).contains old
            if okFF || force then
              let og2 := { og with commits := merged, branches := aInsert branch id og.branches }
              let r2 := { r with remotes := aInsert branch id r.remotes }
              .ok { w with repos := aInsert oname og2 (aInsert name r2 w.repos) }
            else .error .remoteTransferError
  | .pull name branch =>
    match aFind name w.repos with
    | none => .error .noSuchRepo
    | some r =>
      match r.origin with
      | none => .error .remoteTransferError
      | some oname =>
        match aFind oname w.repos with
        | none => .error .noSuchRepo
        | some og =>
          match aFind branch og.branches with
          | none => .error .remoteTransferError
          | some bid =>
            let cs := addMissing r.commits og.commits
            let r1 := { r with commits := cs, remotes := aInsert branch bid r.remotes }
            match aFind r1.head r1.branches with
            | none =>
              .ok (setRepo w name
                { r1 with branches := aInsert r1.head bid r1.branches, workdir := treeIn cs bid })
            | some cid =>
              if cid == bid then .ok (setRepo w name r1)
              else if (ancestors cs bid).contains cid then
                .ok (setRepo w name
                  { r1 with branches := aInsert r1.head bid r1.branches, workdir := treeIn cs bid })
              else .error .remoteTransferError
  | .fetch name =>
    match aFind name w.repos with
    | none => .error .noSuchRepo
    | some r =>
      match r.origin with
      | none => .error .remoteTransferError
      | some oname =>
        match aFind oname w.repos with
        | none => .error .noSuchRepo
        | some og =>
          .ok (setRepo w name
            { r with commits := addMissing r.commits og.commits, remotes := og.branches })
  | .checkout name branch =>
    match aFind name w.repos with
    | none => .error .noSuchRepo
    | some r =>
      match aFind branch r.branches with
      | some id => .ok (setRepo w name { r with head := branch, workdir := treeIn r.commits id })
      | none =>
        match aFind branch r.remotes with
        | some id =>
          .ok (setRepo w name
            { r with branches := aInsert branch id r.branches
                     head := branch
                     workdir := treeIn r.commits id })
        | none => .error .branchError
  | .rebase name onto =>
    match aFind name w.repos with
    | none => .error .noSuchRepo
    | some r =>
      match aFind r.head r.branches, aFind onto r.branches with
      | some curId, some ontoId =>
        if (ancestors r.commits curId).contains ontoId then .ok w
        else if (ancestors r.commits ontoId).contains curId then
          .ok (setRepo w name
            { r with branches := aInsert r.head ontoId r.branches
                     workdir := treeIn r.commits ontoId })
        else
          let toReplay :=
            collectToReplay r.commits (r.commits.length + 1) curId (ancestors r.commits ontoId)
          match replayCommits r.commits w.nextId ontoId (treeIn r.commits ontoId) toReplay with
          | none => .error .rebaseConflictError
          | some (cs2, nid2, tipId, tipT) =>
            .ok { dirpath := w.dirpath
                  repos := aInsert name
                    { r with commits := cs2
                             branches := aInsert r.head tipId r.branches
                             workdir := tipT } w.repos
                  nextId := nid2 }
      | _, _ => .error .branchError

/-- The outcome of running a script: the operations actually issued, the
world after the last successful operation (the partial on-disk state),
and the error that stopped the run, if any. -/
structure RunResult where
  trace : List Op
  world : World
  err : Option Err
deriving DecidableEq, Repr

/-- Run a script left to right, stopping at the first failing operation.
The failing operation is recorded in the trace (it was issued); the
operations after it are not. -/
def runOps : List Op → World → RunResult
  | [], w => ⟨[], w, none⟩
  | op :: rest, w =>
    match applyOp op w with
    | .error e => ⟨[op], w, some e⟩
    | .ok w2 =>
      match runOps rest w2 with
      | ⟨t, fw, e⟩ => ⟨op :: t, fw, e⟩

/-- The operation script of `TwoFeatureBranches.construct`
(`scenarios.py` lines 33-70), transcribed literally. -/
def twoFeatureBranchesScript : List Op :=
  [ .createRepo "repo",
    .commitFile "repo" "Developer 1" "file1.txt" "Initial content" "Initial commit" false,
    .branchCheckout "repo" "A",
    .commitFile "repo" "Developer 1" "file2.txt" "Content from branch A" "Commit on branch A" false,
    .branchCheckout "repo" "main",
    .branchCheckout "repo" "B",
    .commitFile "repo" "Developer 1" "file3.txt" "Content from branch B" "Commit on branch B" false,
    .branchCheckout "repo" "main" ]

/-- The operation script of `ForcePushSharedBranch.construct`
(`scenarios.py` lines 83-155), transcribed literally, including the
explicit `git.checkout` calls the source issues before pulls, commits
and the rebase, and both `fetch` calls of the good clone. -/
def forcePushSharedBranchScript : List Op :=
  [ .createRepo "origin",
    .commitFile "origin" "maintainers" "file1.txt" "Initial content" "Initial commit" false,
    .commitFile "origin" "maintainers" "file1.txt" "Modified content" "Second commit" true,
    .clone "origin" "bad_dev",
    .clone "origin" "good_dev",
    .branchCheckout "bad_dev" "dev",
    .commitFile "bad_dev" "bad-dev" "file2.txt" "some new feature" "add new feature" false,
    .push "bad_dev" "dev" false,
    .commitFile "origin" "maintainers" "file1.txt" "Modified content again" "Third commit" true,
    .checkout "good_dev" "main",
    .pull "good_dev" "main",
    .checkout "bad_dev" "main",
    .pull "bad_dev" "main",
    .fetch "good_dev",
    .checkout "good_dev" "dev",
    .commitFile "good_dev" "good-dev" "file2.txt" "some modified new feature" "modified new feature" true,
    .checkout "bad_dev" "dev",
    .rebase "bad_dev" "main",
    .push "bad_dev" "dev" true,
    .fetch "good_dev",
    .checkout "good_dev" "dev" ]

/-- The operations issued by `DivergedCommitHistories._add_commits`
(`scenarios.py` lines 214-219): `num_commits` file-commit cycles with
the f-string filenames, contents and messages of the source. -/
def addCommitsOps (repo author : String) (numCommits : Nat) (fileStem : String) : List Op :=
  (List.range numCommits).map (fun ind =>
    Op.commitFile repo author
      (fileStem ++ "_" ++ toString ind ++ ".txt")
      ("Content for " ++ fileStem ++ "_" ++ toString ind ++ ".txt, created by " ++ author)
      ("Commit " ++ toString ind ++ " by " ++ author)
      false)

/-- The backend operations `DivergedCommitHistories.construct`
(`scenarios.py` lines 187-212) issues before it reaches the
`self._add_similar_commits` call. -/
def divergedCommitHistoriesScript : List Op :=
  Op.createRepo "upstream" ::
    (addCommitsOps "upstream" "original-dev" 3 "some_file" ++
      (Op.clone "upstream" "fork" ::
        (addCommitsOps "upstream" "external-dev" 3 "some_new_file" ++
          addCommitsOps "fork" "fork-dev" 3 "fork_diverge")))

/-- Construct of the TwoFeatureBranches scenario: run its script on the world. -/
def TwoFeatureBranches.construct (w : World) : RunResult :=
  runOps twoFeatureBranchesScript w

/-- Construct of the ForcePushSharedBranch scenario: run its script on the world. -/
def ForcePushSharedBranch.construct (w : World) : RunResult :=
  runOps forcePushSharedBranchScript w

/-- After its last scripted operation, `DivergedCommitHistories.construct`
evaluates `self._add_similar_commits`, an attribute defined neither on
`DivergedCommitHistories` nor on the `Scenario` base class
(`scenarios.py` lines 9-18 and 158-219), so if the script itself
succeeded the call ends with Python's attribute-lookup error. -/
def divergedWrap (r : RunResult) : RunResult :=
  match r.err with
  | none => ⟨r.trace, r.world, some .attributeError⟩
  | some _ => r

/-- Construct of the DivergedCommitHistories scenario: run its script,
then hit the undefined `_add_similar_commits` attribute. -/
def DivergedCommitHistories.construct (w : World) : RunResult :=
  divergedWrap (runOps divergedCommitHistoriesScript w)

/-- The three concrete scenario kinds of `scenarios.py`. -/
inductive ScenarioKind where
  | twoFeatureBranches
  | forcePushSharedBranch
  | divergedCommitHistories
deriving DecidableEq, Repr

/-- The script of backend operations each scenario kind issues. -/
def scriptOf : ScenarioKind → List Op
  | .twoFeatureBranches => twoFeatureBranchesScript
  | .forcePushSharedBranch => forcePushSharedBranchScript
  | .divergedCommitHistories => divergedCommitHistoriesScript

/-- The construct operation of each scenario kind. -/
def constructOf : ScenarioKind → World → RunResult
  | .twoFeatureBranches, w => TwoFeatureBranches.construct w
  | .forcePushSharedBranch, w => ForcePushSharedBranch.construct w
  | .divergedCommitHistories, w => DivergedCommitHistories.construct w

/-! ### `Scenario.__init__` overwrite handling (`scenarios.py` lines 10-14)

The filesystem is modelled as the list of existing paths; `strUnder dir p`
says `p` is `dir` itself or lies underneath it. -/

/-- Whether `p` equals `dir` or lies strictly under directory `dir`. -/
def strUnder (dir p : String) : Bool :=
  p == dir || (p.data.take (dir ++ "/").data.length == (dir ++ "/").data)

/-- Model of Python's rmtree: remove `dir` and everything under it. -/
def rmtree (dir : String) (fs : List String) : List String :=
  fs.filter (fun q => !(strUnder dir q))

/-- Model of the Scenario initializer (`scenarios.py` lines 10-14):
if `overwrite` and `os.path.exists(dirpath)`, `shutil.rmtree(dirpath)`;
otherwise the filesystem is untouched. -/
def scenarioInit (dirpath : String) (overwrite : Bool) (fs : List String) : List String :=
  if overwrite then
    if fs.contains dirpath then rmtree dirpath fs else fs
  else fs

/-! ### Analysis helpers for the post-construct states -/

/-- The repository of role `name` in a run's final world. -/
def repoIn (r : RunResult) (name : String) : Option Repo :=
  aFind name r.world.repos

/-- Commit ids reachable from an optional tip. -/
def reachableIds (r : Repo) (tip : Option Nat) : List Nat :=
  match tip with
  | some id => ancestors r.commits id
  | none => []

/-- Commit ids reachable from local branch `b` of `r`. -/
def reachableFrom (r : Repo) (b : String) : List Nat :=
  reachableIds r (aFind b r.branches)

/-- Commit ids reachable from remote-tracking branch `origin/b` of `r`. -/
def reachableFromRemote (r : Repo) (b : String) : List Nat :=
  reachableIds r (aFind b r.remotes)

/-- Commits reachable from branch `b1` but not from branch `b2`. -/
def exclusiveCommits (r : Repo) (b1 b2 : String) : List Nat :=
  (reachableFrom r b1).filter (fun id => !(reachableFrom r b2).contains id)

/-- Commit `id` introduces file `f`: its tree holds `f` and its parent's
tree (if any) does not. -/
def introducesFile (r : Repo) (id : Nat) (f : String) : Bool :=
  match findCommit r.commits id with
  | some c =>
    (aFind f c.tree).isSome &&
      (match c.parent with
       | none => true
       | some p => (aFind f (treeIn r.commits p)).isNone)
  | none => false

/-- Commit `id` modifies file `f`: the value of `f` in its tree differs
from the value in its parent's tree (addition, change or removal). -/
def modifiesFile (r : Repo) (id : Nat) (f : String) : Bool :=
  match findCommit r.commits id with
  | some c =>
    !(aFind f c.tree ==
      (match c.parent with
       | some p => aFind f (treeIn r.commits p)
       | none => none))
  | none => false

/-- The message of commit `id` in `r`. -/
def commitMessage (r : Repo) (id : Nat) : Option String :=
  (findCommit r.commits id).map (fun c => c.message)

/-- The repository handles an operation is applied to (for the
handle-creation invariant). -/
def opUses : Op → List String
  | .createRepo _ => []
  | .commitFile r _ _ _ _ _ => [r]
  | .branchCheckout r _ => [r]
  | .clone src _ => [src]
  | .push r _ _ => [r]
  | .pull r _ => [r]
  | .fetch r => [r]
  | .checkout r _ => [r]
  | .rebase r _ => [r]

/-- The repository handles an operation produces. -/
def opCreates : Op → List String
  | .createRepo n => [n]
  | .clone _ dst => [dst]
  | _ => []

/-- Walking a script with the set of already-produced handles: every
operation may only touch handles produced before it. -/
def handleDisciplineFrom (created : List String) : List Op → Bool
  | [] => true
  | op :: rest =>
    (opUses op).all (fun h => created.contains h) &&
      handleDisciplineFrom (created ++ opCreates op) rest

/-- No handle in the script is used before being produced by
create-repository or by cloning an existing handle. -/
def handleDiscipline (ops : List Op) : Bool :=
  handleDisciplineFrom [] ops

/-- The operation sequence asserted by claim C3 for
`ForcePushSharedBranch.construct`, transcribed from the claim's own
enumeration (to compare against the script transcribed from the
source): two commits to origin's main; two clones; creation of a dev
branch and a commit on it in the bad clone followed by a push of dev; a
third commit to origin's main; a pull of main in both clones; a commit
to dev in the good clone; a rebase of dev onto main and a force-push of
dev in the bad clone; a final fetch and checkout of dev in the good
clone. -/
def claimedForcePushSequence : List Op :=
  [ .commitFile "origin" "maintainers" "file1.txt" "Initial content" "Initial commit" false,
    .commitFile "origin" "maintainers" "file1.txt" "Modified content" "Second commit" true,
    .clone "origin" "bad_dev",
    .clone "origin" "good_dev",
    .branchCheckout "bad_dev" "dev",
    .commitFile "bad_dev" "bad-dev" "file2.txt" "some new feature" "add new feature" false,
    .push "bad_dev" "dev" false,
    .commitFile "origin" "maintainers" "file1.txt" "Modified content again" "Third commit" true,
    .pull "good_dev" "main",
    .pull "bad_dev" "main",
    .commitFile "good_dev" "good-dev" "file2.txt" "some modified new feature" "modified new feature" true,
    .rebase "bad_dev" "main",
    .push "bad_dev" "dev" true,
    .fetch "good_dev",
    .checkout "good_dev" "dev" ]

/-- Repaint the directory path of a world: the scripts never read it. -/
def withPath (d : String) (w : World) : World := ⟨d, w.repos, w.nextId⟩

/-- Packaged final-state check for C2: the run succeeded; branch `A` has
exactly one commit not reachable from `main` and it introduces
`file2.txt`; branch `B` has exactly one commit not reachable from
`main` and it introduces `file3.txt`; the checked-out branch is `main`. -/
def twoFBCheck (r : RunResult) : Bool :=
  (r.err == none) &&
  ((repoIn r "repo").map (fun rp =>
      ((exclusiveCommits rp "A" "main").length,
       (exclusiveCommits rp "A" "main").all (fun id => introducesFile rp id "file2.txt"),
       (exclusiveCommits rp "B" "main").length,
       (exclusiveCommits rp "B" "main").all (fun id => introducesFile rp id "file3.txt"),
       rp.head))
    == some (1, true, 1, true, "main"))

/-- Packaged final-state check for the amended C3: the issued trace is
exactly the source script and every operation succeeded. -/
def forcePushTraceCheck (r : RunResult) : Bool :=
  (r.trace == forcePushSharedBranchScript) && (r.err == none)

/-- Packaged final-state check for the amended C4: origin's main has
exactly 3 commits, all modifying `file1.txt`; bad_dev's local dev head
coincides with good_dev's fetched origin/dev head; and good_dev's dev
checkout has a commit with message "modified new feature" that is not
reachable from its fetched origin/dev. -/
def forcePushFinalCheck (r : RunResult) : Bool :=
  ((repoIn r "origin").map
      (fun rp => ((reachableFrom rp "main").length,
                  (reachableFrom rp "main").all (fun id => modifiesFile rp id "file1.txt")))
    == some (3, true)) &&
  ((repoIn r "bad_dev").map (fun rp => aFind "dev" rp.branches)
    == (repoIn r "good_dev").map (fun rp => aFind "dev" rp.remotes)) &&
  ((repoIn r "good_dev").map
      (fun rp => ((reachableFrom rp "dev").filter
          (fun id => !(reachableFromRemote rp "dev").contains id)).any
            (fun id => commitMessage rp id == some "modified new feature"))
    == some true)

/-- Packaged final-state check for C1: the run ends with the
attribute-lookup error, every scripted operation before it was issued,
and the fork's working tree has no `some_new_file_0.txt`. -/
def divergedFailCheck (r : RunResult) : Bool :=
  (r.err == some Err.attributeError) &&
  (r.trace == divergedCommitHistoriesScript) &&
  ((repoIn r "fork").map (fun rp => (aFind "some_new_file_0.txt" rp.workdir).isNone)
    == some true)

/-- Packaged check for the amended C8: the second run of a scenario
kind re-issues that kind's script from its start — its trace is the
script's first two operations, the create-repository no-op on the
existing repository followed by the first create-file-and-commit — but
stops at that create-file-and-commit with a commit error (nothing to
commit), so it is not a silent no-op and appends no commits. -/
def secondRunCheck (k : ScenarioKind) (r : RunResult) : Bool :=
  (r.trace == (scriptOf k).take 2) && (r.err == some Err.commitError)

/-! ### Helper lemmas -/

/-- Path irrelevance of `applyOp`: repainting the path of the
input world repaints the path of the output world and nothing else. -/
theorem applyOp_path (op : Op) (d : String) (w : World) :
    applyOp op (withPath d w) = Except.map (withPath d) (applyOp op w) := by
  cases op <;> simp only [applyOp, withPath, setRepo, Except.map] <;> (repeat' split) <;>
    try simp_all
  all_goals subst_vars
  all_goals simp

/-- Path irrelevance of `runOps`: running on a repainted
world yields the same trace, error, and repositories, with only the
final world's path repainted. -/
theorem runOps_path (ops : List Op) (d : String) (w : World) :
    runOps ops (withPath d w) =
      ⟨(runOps ops w).trace, withPath d (runOps ops w).world, (runOps ops w).err⟩ := by
  induction ops generalizing w with
  | nil => rfl
  | cons op rest ih =>
    have hp := applyOp_path op d w
    cases h : applyOp op w with
    | error e =>
      rw [h] at hp
      simp only [runOps, hp, h, Except.map]
    | ok w2 =>
      rw [h] at hp
      rcases hr : runOps rest w2 with ⟨t, fw, e⟩
      have ih2 := ih w2
      rw [hr] at ih2
      simp only [runOps, hp, h, hr, Except.map, ih2]

/-! ### The claims -/

/-- C2: for every directory path, after a successful construct of the
Two Feature Branches scenario on a fresh directory, branch `A` contains
exactly one commit not reachable from `main`, and that commit
introduces `file2.txt`; branch `B` contains exactly one commit not
reachable from `main`, and that commit introduces `file3.txt`; the
checked-out branch at the end is `main`. -/
theorem twoFeatureBranches_postconditions (d : String) :
    twoFBCheck (TwoFeatureBranches.construct (World.fresh d)) = true := by
  show twoFBCheck (runOps twoFeatureBranchesScript (withPath d (World.fresh ""))) = true
  rw [runOps_path]
  show twoFBCheck (runOps twoFeatureBranchesScript (World.fresh "")) = true
  decide

/-- C3 counterexample: on a concrete fresh directory, the operation
trace actually issued by `ForcePushSharedBranch.construct` is not the
sequence the claim enumerates — the source additionally issues the
creation of the origin repository, the checkouts of main before the
pulls, a fetch and a checkout of dev in the good clone before the good
clone's commit, and a checkout of dev in the bad clone before the
rebase. -/
theorem forcePush_sequence_counterexample :
    ((ForcePushSharedBranch.construct (World.fresh "")).trace
      == claimedForcePushSequence) = false := by
  decide

/-- C3 amended: for every directory path, `ForcePushSharedBranch.construct`
on a fresh directory issues exactly the source's 21-operation sequence
`forcePushSharedBranchScript` — the claim's enumeration extended with
the creation of the origin repository, the checkout of main in each
clone before its pull, a fetch and a checkout of dev in the good clone
before its dev commit, and a checkout of dev in the bad clone before
the rebase — every operation succeeding. -/
theorem forcePush_sequence_exact (d : String) :
    forcePushTraceCheck (ForcePushSharedBranch.construct (World.fresh d)) = true := by
  show forcePushTraceCheck (runOps forcePushSharedBranchScript (withPath d (World.fresh ""))) = true
  rw [runOps_path]
  show forcePushTraceCheck (runOps forcePushSharedBranchScript (World.fresh "")) = true
  decide

/-- C4 counterexample: on a concrete fresh directory, after construct,
bad_dev's local dev head and good_dev's fetched origin/dev head are the
same commit (id 5, the rebased commit force-pushed to origin and then
fetched), contradicting the claim that they differ in commit hash. -/
theorem forcePush_devHash_counterexample :
    (repoIn (ForcePushSharedBranch.construct (World.fresh "")) "bad_dev").map
        (fun r => aFind "dev" r.branches) = some (some 5) ∧
    (repoIn (ForcePushSharedBranch.construct (World.fresh "")) "good_dev").map
        (fun r => aFind "dev" r.remotes) = some (some 5) := by
  constructor <;> decide

/-- C4 amended: for every directory path, after construct on a fresh
directory, origin's main has exactly 3 commits, all modifying
`file1.txt`; bad_dev's local dev head is the same commit as good_dev's
fetched origin/dev head (the rebase + force-push + fetch make them
coincide, not differ); and good_dev's working dev checkout, before any
reconciliation, contains a commit with message "modified new feature"
that is not reachable from the rebased origin/dev. -/
theorem forcePush_postconditions_amended (d : String) :
    forcePushFinalCheck (ForcePushSharedBranch.construct (World.fresh d)) = true := by
  show forcePushFinalCheck (runOps forcePushSharedBranchScript (withPath d (World.fresh ""))) = true
  rw [runOps_path]
  show forcePushFinalCheck (runOps forcePushSharedBranchScript (World.fresh "")) = true
  decide

/-- C1 evaluated on the code: for every directory path,
`DivergedCommitHistories.construct` on a fresh directory never reaches
the replay step — it stops with the attribute-lookup error for the
undefined `_add_similar_commits` right after the nine scripted commits,
and the fork's working tree does not contain `some_new_file_0.txt`, so
the fork's file set is not the claimed full set identical to
upstream's. -/
theorem diverged_replay_bug (d : String) :
    divergedFailCheck (DivergedCommitHistories.construct (World.fresh d)) = true := by
  show divergedFailCheck
      (divergedWrap (runOps divergedCommitHistoriesScript (withPath d (World.fresh "")))) = true
  rw [runOps_path,
      show (runOps divergedCommitHistoriesScript (World.fresh "")).err = none from by decide]
  show divergedFailCheck
      ⟨(runOps divergedCommitHistoriesScript (World.fresh "")).trace,
       (runOps divergedCommitHistoriesScript (World.fresh "")).world,
       some Err.attributeError⟩ = true
  decide

/-- C10: `DivergedCommitHistories.construct` never completes
successfully: on every starting world the run ends with an error, and
for every directory path, when every backend operation succeeds (as on
a fresh directory) the error is precisely the attribute-lookup failure
raised at the `_add_similar_commits` step after the three fork_diverge
commits. -/
theorem diverged_never_succeeds :
    (∀ w : World, (DivergedCommitHistories.construct w).err.isSome = true) ∧
    (∀ d : String,
      (DivergedCommitHistories.construct (World.fresh d)).err = some Err.attributeError) := by
  constructor
  · intro w
    show (divergedWrap (runOps divergedCommitHistoriesScript w)).err.isSome = true
    cases h : (runOps divergedCommitHistoriesScript w).err with
    | none => simp [divergedWrap, h]
    | some e => simp [divergedWrap, h]
  · intro d
    show (divergedWrap (runOps divergedCommitHistoriesScript (withPath d (World.fresh "")))).err
        = some Err.attributeError
    rw [runOps_path,
        show (runOps divergedCommitHistoriesScript (World.fresh "")).err = none from by decide]
    rfl

/-- Helper: a path equal to or under `dir` does not survive
`rmtree dir`. -/
theorem rmtree_removes (dir p : String) (fs : List String) (hp : strUnder dir p = true) :
    (rmtree dir fs).contains p = false := by
  have hmem : p ∉ rmtree dir fs := by
    intro hm
    have hkeep := List.of_mem_filter hm
    rw [hp] at hkeep
    simp at hkeep
  cases hc : (rmtree dir fs).contains p
  · rfl
  · exact absurd (List.mem_of_elem_eq_true hc) hmem

/-- C5: for every directory path and filesystem, constructing a
Scenario with overwrite true deletes the target directory and all of
its contents when the directory exists (this happens in
`Scenario.__init__`, before `construct()` creates any repository), and
touches nothing when the directory does not exist. -/
theorem scenarioInit_overwrite (dirpath p : String) (fs : List String) :
    (fs.contains dirpath = true → strUnder dirpath p = true →
      (scenarioInit dirpath true fs).contains p = false) ∧
    (fs.contains dirpath = false → scenarioInit dirpath true fs = fs) := by
  constructor
  · intro hex hp
    show (if fs.contains dirpath = true then rmtree dirpath fs else fs).contains p = false
    rw [if_pos hex]
    exact rmtree_removes dirpath p fs hp
  · intro hnex
    show (if fs.contains dirpath = true then rmtree dirpath fs else fs) = fs
    rw [hnex]
    simp

/-- C5 witness: concrete instances of both branches of
`scenarioInit_overwrite`. -/
theorem scenarioInit_overwrite_witness :
    (scenarioInit "d" true ["d", "d/x", "other"]).contains "d/x" = false ∧
    scenarioInit "d" true ["other"] = ["other"] :=
  ⟨(scenarioInit_overwrite "d" "d/x" ["d", "d/x", "other"]).1 (by decide) (by decide),
   (scenarioInit_overwrite "d" "x" ["other"]).2 (by decide)⟩

/-- C6: for every directory path and filesystem, constructing a
Scenario with overwrite false performs no filesystem modification:
`Scenario.__init__` leaves every pre-existing path untouched. -/
theorem scenarioInit_noOverwrite (dirpath : String) (fs : List String) :
    scenarioInit dirpath false fs = fs := rfl

/-- Helper: if the operations of `pre` all succeed and `op` then fails
with `e`, running `pre ++ op :: post` issues exactly `pre ++ [op]`,
surfaces `e`, and leaves the world in the state after `pre`. -/
theorem runOps_append_error (pre post : List Op) (op : Op) (w : World) (e : Err)
    (h1 : (runOps pre w).err = none)
    (h2 : applyOp op (runOps pre w).world = Except.error e) :
    runOps (pre ++ op :: post) w = ⟨pre ++ [op], (runOps pre w).world, some e⟩ := by
  induction pre generalizing w with
  | nil =>
    simp only [runOps] at h1 h2
    simp only [List.nil_append, runOps, h2]
  | cons p ps ih =>
    cases hap : applyOp p w with
    | error e2 =>
      simp only [runOps, hap] at h1
      exact Option.noConfusion h1
    | ok w2 =>
      simp only [runOps, hap] at h1 h2
      have h3 := ih w2 h1 h2
      simp only [List.cons_append, List.append_eq, runOps, hap, h3]

/-- C7: for every scenario kind, if the script decomposes as
`pre ++ op :: post`, the operations of `pre` succeed and `op` fails
with error `e`, then `construct()` surfaces exactly `e` (unwrapped, no
retry), issues no operation after `op`, and leaves the world in the
partial state reached after `pre`. -/
theorem construct_error_propagation (k : ScenarioKind) (pre post : List Op) (op : Op)
    (w : World) (e : Err)
    (hs : scriptOf k = pre ++ op :: post)
    (h1 : (runOps pre w).err = none)
    (h2 : applyOp op (runOps pre w).world = Except.error e) :
    constructOf k w = ⟨pre ++ [op], (runOps pre w).world, some e⟩ := by
  have hrun := runOps_append_error pre post op w e h1 h2
  cases k with
  | twoFeatureBranches =>
    show runOps twoFeatureBranchesScript w = _
    rw [show twoFeatureBranchesScript = pre ++ op :: post from hs, hrun]
  | forcePushSharedBranch =>
    show runOps forcePushSharedBranchScript w = _
    rw [show forcePushSharedBranchScript = pre ++ op :: post from hs, hrun]
  | divergedCommitHistories =>
    show divergedWrap (runOps divergedCommitHistoriesScript w) = _
    rw [show divergedCommitHistoriesScript = pre ++ op :: post from hs, hrun]
    rfl

/-- C7 witness: on the world left by a first TwoFeatureBranches run,
the second run's first create-file-and-commit fails (nothing to
commit); `construct()` stops right there with that commit error. -/
theorem construct_error_propagation_witness :
    constructOf ScenarioKind.twoFeatureBranches
        (TwoFeatureBranches.construct (World.fresh "")).world =
      ⟨[Op.createRepo "repo",
        Op.commitFile "repo" "Developer 1" "file1.txt" "Initial content" "Initial commit" false],
       (runOps [Op.createRepo "repo"]
          (TwoFeatureBranches.construct (World.fresh "")).world).world,
       some Err.commitError⟩ :=
  construct_error_propagation ScenarioKind.twoFeatureBranches
    [Op.createRepo "repo"]
    [Op.branchCheckout "repo" "A",
     Op.commitFile "repo" "Developer 1" "file2.txt" "Content from branch A" "Commit on branch A" false,
     Op.branchCheckout "repo" "main",
     Op.branchCheckout "repo" "B",
     Op.commitFile "repo" "Developer 1" "file3.txt" "Content from branch B" "Commit on branch B" false,
     Op.branchCheckout "repo" "main"]
    (Op.commitFile "repo" "Developer 1" "file1.txt" "Initial content" "Initial commit" false)
    (TwoFeatureBranches.construct (World.fresh "")).world
    Err.commitError
    rfl (by decide) rfl

/-- C8 counterexample: on a concrete directory just built by
`TwoFeatureBranches.construct`, a second `construct()` does not issue
the full script again — it stops at the first create-file-and-commit
with a commit error, so it appends no commits on top of the existing
state. -/
theorem second_construct_counterexample :
    ((TwoFeatureBranches.construct
        (TwoFeatureBranches.construct (World.fresh "")).world).trace
      == twoFeatureBranchesScript) = false ∧
    (TwoFeatureBranches.construct
        (TwoFeatureBranches.construct (World.fresh "")).world).err
      = some Err.commitError := by
  constructor <;> decide

/-- Helper: the attribute-error wrapper of the Diverged scenario never
changes the world component of a run. -/
theorem divergedWrap_world (r : RunResult) : (divergedWrap r).world = r.world := by
  cases h : r.err with
  | none => simp [divergedWrap, h]
  | some e => simp [divergedWrap, h]

set_option maxHeartbeats 4000000 in
/-- C8 amended: for every scenario kind and every directory path, a
second `construct()` on the directory just built (without overwrite)
is not a silent no-op and does not inspect or branch on the existing
state: it re-issues that kind's script from its start, but stops at
the first create-file-and-commit with a commit error (nothing to
commit), appending no commits and leaving the world unchanged. -/
theorem second_construct_behavior (k : ScenarioKind) (d : String) :
    secondRunCheck k (constructOf k (constructOf k (World.fresh d)).world) = true ∧
    (constructOf k (constructOf k (World.fresh d)).world).world
      = (constructOf k (World.fresh d)).world := by
  cases k with
  | twoFeatureBranches =>
    have h1 : (runOps twoFeatureBranchesScript (World.fresh d)).world
        = withPath d (runOps twoFeatureBranchesScript (World.fresh "")).world := by
      rw [show World.fresh d = withPath d (World.fresh "") from rfl, runOps_path]
    constructor
    · show secondRunCheck ScenarioKind.twoFeatureBranches
        (runOps twoFeatureBranchesScript
          (runOps twoFeatureBranchesScript (World.fresh d)).world) = true
      rw [h1, runOps_path]
      show secondRunCheck ScenarioKind.twoFeatureBranches
        (runOps twoFeatureBranchesScript
          (runOps twoFeatureBranchesScript (World.fresh "")).world) = true
      decide
    · show (runOps twoFeatureBranchesScript
          (runOps twoFeatureBranchesScript (World.fresh d)).world).world
        = (runOps twoFeatureBranchesScript (World.fresh d)).world
      rw [h1, runOps_path]
      show withPath d (runOps twoFeatureBranchesScript
          (runOps twoFeatureBranchesScript (World.fresh "")).world).world
        = withPath d (runOps twoFeatureBranchesScript (World.fresh "")).world
      rw [show (runOps twoFeatureBranchesScript
          (runOps twoFeatureBranchesScript (World.fresh "")).world).world
        = (runOps twoFeatureBranchesScript (World.fresh "")).world from by decide]
  | forcePushSharedBranch =>
    have h1 : (runOps forcePushSharedBranchScript (World.fresh d)).world
        = withPath d (runOps forcePushSharedBranchScript (World.fresh "")).world := by
      rw [show World.fresh d = withPath d (World.fresh "") from rfl, runOps_path]
    constructor
    · show secondRunCheck ScenarioKind.forcePushSharedBranch
        (runOps forcePushSharedBranchScript
          (runOps forcePushSharedBranchScript (World.fresh d)).world) = true
      rw [h1, runOps_path]
      show secondRunCheck ScenarioKind.forcePushSharedBranch
        (runOps forcePushSharedBranchScript
          (runOps forcePushSharedBranchScript (World.fresh "")).world) = true
      decide
    · show (runOps forcePushSharedBranchScript
          (runOps forcePushSharedBranchScript (World.fresh d)).world).world
        = (runOps forcePushSharedBranchScript (World.fresh d)).world
      rw [h1, runOps_path]
      show withPath d (runOps forcePushSharedBranchScript
          (runOps forcePushSharedBranchScript (World.fresh "")).world).world
        = withPath d (runOps forcePushSharedBranchScript (World.fresh "")).world
      rw [show (runOps forcePushSharedBranchScript
          (runOps forcePushSharedBranchScript (World.fresh "")).world).world
        = (runOps forcePushSharedBranchScript (World.fresh "")).world from by decide]
  | divergedCommitHistories =>
    have h1 : (runOps divergedCommitHistoriesScript (World.fresh d)).world
        = withPath d (runOps divergedCommitHistoriesScript (World.fresh "")).world := by
      rw [show World.fresh d = withPath d (World.fresh "") from rfl, runOps_path]
    have hE2 : (runOps divergedCommitHistoriesScript
        (runOps divergedCommitHistoriesScript (World.fresh "")).world).err
        = some Err.commitError := by decide
    constructor
    · show secondRunCheck ScenarioKind.divergedCommitHistories
        (divergedWrap (runOps divergedCommitHistoriesScript
          (divergedWrap (runOps divergedCommitHistoriesScript (World.fresh d))).world)) = true
      rw [divergedWrap_world, h1, runOps_path, hE2]
      show secondRunCheck ScenarioKind.divergedCommitHistories
        (⟨(runOps divergedCommitHistoriesScript
            (runOps divergedCommitHistoriesScript (World.fresh "")).world).trace,
          (runOps divergedCommitHistoriesScript
            (runOps divergedCommitHistoriesScript (World.fresh "")).world).world,
          some Err.commitError⟩ : RunResult) = true
      decide
    · show (divergedWrap (runOps divergedCommitHistoriesScript
          (divergedWrap (runOps divergedCommitHistoriesScript (World.fresh d))).world)).world
        = (divergedWrap (runOps divergedCommitHistoriesScript (World.fresh d))).world
      rw [divergedWrap_world, divergedWrap_world, h1, runOps_path]
      show withPath d (runOps divergedCommitHistoriesScript
          (runOps divergedCommitHistoriesScript (World.fresh "")).world).world
        = withPath d (runOps divergedCommitHistoriesScript (World.fresh "")).world
      rw [show (runOps divergedCommitHistoriesScript
          (runOps divergedCommitHistoriesScript (World.fresh "")).world).world
        = (runOps divergedCommitHistoriesScript (World.fresh "")).world from by decide]

/-- C9: in every scenario's script, every repository handle that a
commit, branch, push, pull, fetch, checkout or rebase is applied to
(and every clone source) was produced earlier in the script by the
create-repository primitive or by cloning. -/
theorem scripts_handle_discipline :
    ∀ k : ScenarioKind, handleDiscipline (scriptOf k) = true := by
  intro k
  cases k <;> decide

end GitFails
